import Mathlib

/-!
Verification of the real-time session and stream-reconciliation client of the
interview-assistant repository.  The definitions below are shallow embeddings of
the TypeScript source files `frontend/app/chatgpt-interface.tsx`,
`frontend/utils/api.ts`, `frontend/utils/socketio.ts` and
`frontend/utils/eventStream.ts`.  Machine floating point is modelled with `ℚ`,
JavaScript strings with `String`, and the stateful callback closures with
explicit state-passing step functions.
-/

namespace Copilot

/-! ## Transcript data model (`chatgpt-interface.tsx`) -/

/-- Message roles as used by the chat interface (`Message` in `api.ts` /
`chatgpt-interface.tsx`): `user`, `assistant`, `system`, `log`. -/
inductive Role where
  | user
  | assistant
  | system
  | log
deriving DecidableEq, Repr

/-- A transcript message: role, content and the optional client-assigned id used
for the screenshot placeholder messages. -/
structure Message where
  role : Role
  content : String
  id : Option String := none
deriving DecidableEq, Repr

/-- Whether `pre` is a prefix of `l` (character lists). -/
def listStartsWith : List Char → List Char → Bool
  | [], _ => true
  | _ :: _, [] => false
  | p :: ps, c :: cs => p == c && listStartsWith ps cs

/-- Substring occurrence on character lists.  An empty pattern occurs in every
list, matching JavaScript `String.prototype.includes`. -/
def listContains (pat : List Char) : List Char → Bool
  | [] => pat.isEmpty
  | c :: cs => listStartsWith pat (c :: cs) || listContains pat cs

/-- JavaScript `s.includes(pat)`. -/
def strContains (s pat : String) : Bool :=
  listContains pat.data s.data

/-- Index of the last message satisfying `p`, computed the way the code does:
`[...prev].reverse().findIndex(p)` and then `length - 1 - reversedIndex`
(`chatgpt-interface.tsx:61-68`). -/
def findLastIdx (p : Message → Bool) (l : List Message) : Option Nat :=
  match l.reverse.findIdx? p with
  | some r => some (l.length - 1 - r)
  | none => none

/-- In-place content update `newMessages[i] = {...newMessages[i], content: text}`. -/
def replaceContentAt (l : List Message) (i : Nat) (text : String) : List Message :=
  match l.get? i with
  | some m => l.set i { m with content := text }
  | none => l

/-- The waiting-message predicate of `handleResponse`
(`chatgpt-interface.tsx:83-89`): a `log` or `assistant` message whose content
mentions capturing / screenshots / analysis. -/
def isWaitingMsg (m : Message) : Bool :=
  (m.role == Role.log || m.role == Role.assistant) &&
    (strContains m.content ("Capturing") || strContains m.content ("Screenshot") ||
      strContains m.content ("screen") || strContains m.content ("analyzing"))

/-- The non-replace path of `handleResponse` (`chatgpt-interface.tsx:80-111`):
if the text mentions a screenshot/screen, replace a waiting message in place;
otherwise append a new assistant message. -/
def respFallback (prev : List Message) (text : String) : List Message :=
  if strContains text ("screenshot") || strContains text ("screen") then
    match prev.findIdx? isWaitingMsg with
    | some j => prev.set j { role := Role.assistant, content := text, id := none }
    | none => prev ++ [{ role := Role.assistant, content := text, id := none }]
  else
    prev ++ [{ role := Role.assistant, content := text, id := none }]

/-- `handleResponse` (`chatgpt-interface.tsx:53-112`) as a pure fold over the
message list: if a last assistant message exists and the update is not final,
its content is replaced in place; in every other case control falls through to
`respFallback`. -/
def handleResponse (prev : List Message) (text : String) (final : Bool) :
    List Message :=
  match findLastIdx (fun m => m.role == Role.assistant) prev with
  | some i => if final = false then replaceContentAt prev i text else respFallback prev text
  | none => respFallback prev text

/-- `handleTranscription` (`chatgpt-interface.tsx:47-50`) only logs the update;
it performs no transcript change. -/
def handleTranscription (prev : List Message) (_text : String) : List Message :=
  prev

/-- Content of the waiting log entry appended by `handleSendMessage`. -/
def processingNotice : String := "Processing your request..."

/-- The local transcript appends of `handleSendMessage`
(`chatgpt-interface.tsx:376-384`): the user's message followed by a waiting
`log` message. -/
def sendMessageLocalAppend (prev : List Message) (text : String) : List Message :=
  prev ++ [{ role := Role.user, content := text, id := none },
           { role := Role.log, content := processingNotice, id := none }]

/-- Number of messages with a given role and content. -/
def countRoleContent (r : Role) (t : String) (l : List Message) : Nat :=
  (l.filter (fun m => m.role == r && m.content == t)).length

/-- Number of messages with a given role. -/
def countRole (r : Role) (l : List Message) : Nat :=
  (l.filter (fun m => m.role == r)).length

/-- JavaScript `a || b` where `a` is a possibly-absent boolean field of a parsed
JSON payload: if `a` is truthy (`some true`) the result is `a`, otherwise `b`. -/
def jsOr (a : Option Bool) (b : Bool) : Bool :=
  match a with
  | some true => true
  | _ => b

/-- The dispatch performed by the inline `eventSource.onmessage` handler for
`type === 'response'` payloads (`chatgpt-interface.tsx:162-168` and the
reconnect path at `490-496`): it invokes `handleResponse` with the flag
`data.final || true`. -/
def dispatchResponse (prev : List Message) (text : String)
    (dataFinal : Option Bool) : List Message :=
  handleResponse prev text (jsOr dataFinal true)

/-! ## Session id validation and the session API client (`api.ts`) -/

/-- Characters stripped by JavaScript `String.prototype.trim` (the ASCII ones
plus no-break space; `trim` also strips rarer Unicode spaces, which never
matters below because the digit test is the binding conjunct). -/
def jsWhitespace (c : Char) : Bool :=
  c == ' ' || c == '\t' || c == '\n' || c == '\r' || c == '\x0B' || c == '\x0C' ||
    c == ' '

/-- JavaScript `s.trim()`. -/
def jsTrim (s : String) : String :=
  String.mk (((s.data.dropWhile jsWhitespace).reverse.dropWhile jsWhitespace).reverse)

/-- The regular-expression test `/^\d+$/.test(s)`: nonempty and all ASCII
digits. -/
def regexAllDigits (s : String) : Bool :=
  !s.isEmpty && s.data.all Char.isDigit

/-- `isValidSessionId` (`api.ts:15-21`): defined and non-null, nonempty after
trimming, and matching `/^\d+$/`.  `none` models `undefined`/`null`. -/
def isValidSessionId : Option String → Bool
  | none => false
  | some s => !(jsTrim s).isEmpty && regexAllDigits s

/-- Network requests the client can issue against the session endpoints. -/
inductive NetRequest where
  | startReq (sessionId : String)
  | endReq (sessionId : String)
  | textReq (sessionId : String) (text : String)
deriving DecidableEq, Repr

/-- The `setTimeout(() => controller.abort(), 10000)` bound used by
`startSession` (`api.ts:200-202`), in milliseconds. -/
def START_TIMEOUT_MS : Nat := 10000

/-- Outcome of the `fetch` performed by `startSession`: HTTP error status,
server JSON with a `success` flag, abort by the timeout, or a network
failure. -/
inductive StartOutcome where
  | httpError (status : Nat)
  | serverOk (success : Bool)
  | timeout
  | fetchFailed
deriving DecidableEq, Repr

/-- `startSession` (`api.ts:193-235`): rejects invalid ids without any request;
otherwise issues one start request and returns `false` on HTTP error, timeout
abort, network failure or a `success:false` body.  All failures are caught and
reported through the boolean result. -/
def startSession (sessionId : Option String) (outcome : StartOutcome) :
    Bool × List NetRequest :=
  if isValidSessionId sessionId = false then (false, [])
  else
    let reqs := [NetRequest.startReq (sessionId.getD (""))]
    match outcome with
    | StartOutcome.httpError _ => (false, reqs)
    | StartOutcome.serverOk ok => (ok, reqs)
    | StartOutcome.timeout => (false, reqs)
    | StartOutcome.fetchFailed => (false, reqs)

/-- The client's connection-holding fields relevant to `endSession`
(`api.ts:101-103`): the Socket.IO handle, the SSE handle, and the audio
connection map (keyed by session id). -/
structure ClientState where
  socketOpen : Bool
  eventSourceOpen : Bool
  audioConnections : List String
deriving DecidableEq, Repr

/-- Outcome of the `fetch` performed by `endSession`. -/
inductive EndOutcome where
  | httpError (status : Nat)
  | notSuccess
  | success
  | fetchFailed
deriving DecidableEq, Repr

/-- `stopAudioStream` (`api.ts:645-660`): stops tracks and removes the session's
audio connection. -/
def stopAudioStream (st : ClientState) (sessionId : String) : ClientState :=
  { st with audioConnections := st.audioConnections.filter (fun s => s != sessionId) }

/-- `endSession` (`api.ts:242-292`): rejects invalid ids without any request;
otherwise always stops the audio stream and issues one end request — there is no
client-side ended-state guard — returning `false` on any failure (all errors are
caught) and closing the socket and SSE handles only on success. -/
def endSession (st : ClientState) (sessionId : Option String) (outcome : EndOutcome) :
    ClientState × Bool × List NetRequest :=
  if isValidSessionId sessionId = false then (st, false, [])
  else
    let sid := sessionId.getD ("")
    let st1 := stopAudioStream st sid
    let reqs := [NetRequest.endReq sid]
    match outcome with
    | EndOutcome.httpError _ => (st1, false, reqs)
    | EndOutcome.notSuccess => (st1, false, reqs)
    | EndOutcome.fetchFailed => (st1, false, reqs)
    | EndOutcome.success =>
        ({ socketOpen := false, eventSourceOpen := false,
           audioConnections := st1.audioConnections.filter (fun s => s != sid) },
         true, reqs)

/-- How `sendTextMessage` terminates: a returned boolean or a thrown error. -/
inductive SendTextResult where
  | returned (b : Bool)
  | threw
deriving DecidableEq, Repr

/-- Outcome of the `fetch` performed by `sendTextMessage`. -/
inductive TextOutcome where
  | httpError (status : Nat)
  | invalidJson
  | notSuccess
  | success
  | fetchFailed
deriving DecidableEq, Repr

/-- `sendTextMessage` (`api.ts:485-530`): rejects invalid ids by returning
`false` without any request; otherwise issues one text request, returns `true`
on success and re-throws every other failure. -/
def sendTextMessage (sessionId : Option String) (text : String)
    (outcome : TextOutcome) : SendTextResult × List NetRequest :=
  if isValidSessionId sessionId = false then (SendTextResult.returned false, [])
  else
    let reqs := [NetRequest.textReq (sessionId.getD ("")) text]
    match outcome with
    | TextOutcome.success => (SendTextResult.returned true, reqs)
    | _ => (SendTextResult.threw, reqs)

/-- What `streamSessionUpdates` returns at its validity gate. -/
inductive StreamSetup where
  | noopCleanup
  | streamOpened
deriving DecidableEq, Repr

/-- The validity gate of `streamSessionUpdates` (`api.ts:342-345`): an invalid
session id yields a no-op cleanup function and no connection is opened. -/
def streamSessionUpdates (sessionId : Option String) : StreamSetup :=
  if isValidSessionId sessionId = false then StreamSetup.noopCleanup
  else StreamSetup.streamOpened

/-- No whitespace character is an ASCII digit. -/
theorem digit_not_jsWhitespace (c : Char) (h : c.isDigit = true) :
    jsWhitespace c = false := by
  rcases Bool.eq_false_or_eq_true (jsWhitespace c) with ht | hf
  · exfalso
    unfold jsWhitespace at ht
    simp only [Bool.or_eq_true, beq_iff_eq] at ht
    rcases ht with ((((((h1 | h1) | h1) | h1) | h1) | h1) | h1) <;>
      (subst h1; exact absurd h (by decide))
  · exact hf

/-- `dropWhile jsWhitespace` leaves an all-digit character list unchanged. -/
theorem dropWhile_ws_of_all_digits (l : List Char) (h : l.all Char.isDigit = true) :
    l.dropWhile jsWhitespace = l := by
  cases l with
  | nil => rfl
  | cons c cs =>
      have hc : Char.isDigit c = true := by
        simp only [List.all_cons, Bool.and_eq_true] at h
        exact h.1
      rw [List.dropWhile_cons, digit_not_jsWhitespace c hc]
      simp

/-- `jsTrim` leaves an all-digit string unchanged. -/
theorem jsTrim_of_all_digits (s : String) (h : s.data.all Char.isDigit = true) :
    jsTrim s = s := by
  unfold jsTrim
  rw [dropWhile_ws_of_all_digits _ h]
  rw [dropWhile_ws_of_all_digits]
  · cases s
    simp
  · rw [List.all_eq_true] at h ⊢
    intro c hc
    exact h c (List.mem_reverse.mp hc)

/-- The validity predicate accepts exactly the nonempty all-digit strings: the
trim conjunct is redundant given the regular-expression conjunct. -/
theorem isValidSessionId_some (s : String) :
    isValidSessionId (some s) = (!s.isEmpty && s.data.all Char.isDigit) := by
  show (!(jsTrim s).isEmpty && regexAllDigits s) = _
  rcases Bool.eq_false_or_eq_true (s.data.all Char.isDigit) with hd | hd
  · unfold regexAllDigits
    rw [jsTrim_of_all_digits s hd, hd]
    cases hb : s.isEmpty <;> simp [hb]
  · unfold regexAllDigits
    rw [hd]
    simp

/-- C10: for every session id that is null/undefined, empty, or contains a
non-digit character, `startSession`, `endSession` and `sendTextMessage` return
`false` and `streamSessionUpdates` returns a no-op cleanup, all without issuing
any network request; the client accepts exactly the nonempty all-digit ids. -/
theorem invalid_session_id_rejected_without_network (sessionId : Option String)
    (h : isValidSessionId sessionId = false) :
    (∀ oc, startSession sessionId oc = (false, [])) ∧
    (∀ st oc, endSession st sessionId oc = (st, false, [])) ∧
    (∀ text oc, sendTextMessage sessionId text oc = (SendTextResult.returned false, [])) ∧
    streamSessionUpdates sessionId = StreamSetup.noopCleanup ∧
    (∀ s : String, isValidSessionId (some s) = (!s.isEmpty && s.data.all Char.isDigit)) := by
  refine ⟨?_, ?_, ?_, ?_, isValidSessionId_some⟩ <;>
    intros <;> simp [startSession, endSession, sendTextMessage, streamSessionUpdates, h]

/-- C10 witness: the id "12a" (non-digit) and the null id are rejected by
`startSession` with no network request. -/
theorem invalid_session_id_rejected_without_network_witness :
    startSession (some ("12a")) StartOutcome.timeout = (false, []) ∧
    startSession none StartOutcome.timeout = (false, []) :=
  ⟨(invalid_session_id_rejected_without_network (some ("12a")) (by decide)).1 _,
   (invalid_session_id_rejected_without_network none (by decide)).1 _⟩

/-- C3 counterexample: ending session "7" twice issues a network request to the
end endpoint on the second call as well, refuting "never issues a second
network call". -/
theorem endSession_second_call_issues_network :
    (endSession
        (endSession
            { socketOpen := true, eventSourceOpen := true, audioConnections := ["7"] }
            (some ("7")) EndOutcome.success).1
        (some ("7")) EndOutcome.success).2.2 = [NetRequest.endReq ("7")] := by
  decide

/-- C3 corrected: `endSession` never throws (every failure is caught and
reported by a `false` result) and a repeated call is accepted, but each call
with a valid session id issues exactly one network request to the end endpoint —
there is no idempotence guard, so a second call issues a second request. -/
theorem endSession_valid_always_one_request (st : ClientState)
    (sessionId : Option String) (oc : EndOutcome)
    (h : isValidSessionId sessionId = true) :
    (endSession st sessionId oc).2.2 = [NetRequest.endReq (sessionId.getD (""))] := by
  cases oc <;> simp [endSession, h]

/-- C3 witness: a concrete valid call issues exactly one end request. -/
theorem endSession_valid_always_one_request_witness :
    (endSession { socketOpen := true, eventSourceOpen := true, audioConnections := [] }
        (some ("3")) EndOutcome.success).2.2 = [NetRequest.endReq ("3")] :=
  endSession_valid_always_one_request _ _ _ (by decide)

/-- C8: `startSession` bounds its wait by the 10000 ms abort timeout (within the
10-15 s recommendation) and reports failure to its caller whenever the server
rejects the start call (HTTP error or `success:false`), the call times out, or
the fetch fails. -/
theorem startSession_timeout_bounded_and_fails_on_reject :
    (10000 ≤ START_TIMEOUT_MS ∧ START_TIMEOUT_MS ≤ 15000) ∧
    (∀ sessionId status, (startSession sessionId (StartOutcome.httpError status)).1 = false) ∧
    (∀ sessionId, (startSession sessionId StartOutcome.timeout).1 = false) ∧
    (∀ sessionId, (startSession sessionId (StartOutcome.serverOk false)).1 = false) ∧
    (∀ sessionId, (startSession sessionId StartOutcome.fetchFailed).1 = false) := by
  refine ⟨⟨by norm_num [START_TIMEOUT_MS], by norm_num [START_TIMEOUT_MS]⟩, ?_, ?_, ?_, ?_⟩ <;>
    (intros; unfold startSession; split <;> rfl)

/-! ## Audio pipeline (`socketio.ts` and `api.ts` `startAudioStream`) -/

/-- JavaScript `Math.round`: round half toward positive infinity. -/
def jsRound (q : ℚ) : ℤ := ⌊q + 1 / 2⌋

/-- The PCM16 sample conversion of `onaudioprocess` (`socketio.ts:246-250`):
`Math.max(-32768, Math.min(32767, Math.round(x * 32767)))`. -/
def pcm16 (x : ℚ) : ℤ := max (-32768) (min 32767 (jsRound (x * 32767)))

/-- Minimum number of accumulated samples before a send (200 ms at 24 kHz,
`socketio.ts:209`). -/
def minimumAudioLength : Nat := 4800

/-- The mutable state read by `onaudioprocess`: the `isActiveRef` flag and the
audio accumulation buffer (`socketio.ts:30,208`). -/
structure SockState where
  isActiveRef : Bool
  accumulator : List (List ℤ)
deriving DecidableEq, Repr

/-- `onaudioprocess` (`socketio.ts:212-336`) as a state-and-output step: guard
on the socket handle and the active ref, drop silent or near-zero frames, scale
to PCM16, accumulate until 200 ms of audio is available, then emit the merged
samples over the socket (only when it is connected), resetting the buffer. -/
def onaudioprocess (st : SockState) (socketPresent socketConnected : Bool)
    (inputData : List ℚ) : SockState × Option (List ℤ) :=
  if !socketPresent || !st.isActiveRef then (st, none)
  else if !(inputData.any (fun v => (1 : ℚ) / 100 < |v|)) then (st, none)
  else
    let scaledData := inputData.map pcm16
    if (scaledData.filter (fun v => v != 0)).length < 10 then (st, none)
    else
      let acc := st.accumulator ++ [scaledData]
      let totalSamples := (acc.map List.length).sum
      if totalSamples < minimumAudioLength then ({ st with accumulator := acc }, none)
      else
        let mergedArray := acc.flatten
        if mergedArray.length < minimumAudioLength then ({ st with accumulator := acc }, none)
        else if !socketConnected then ({ st with accumulator := acc }, none)
        else ({ st with accumulator := [] }, some mergedArray)

/-- Events acting on the socket audio state: `start`/`stop` from the returned
control (`socketio.ts:98-99,372-374`), the socket `disconnect` handler
(`socketio.ts:47-51`), and an audio-processing callback. -/
inductive SockEv where
  | startRec
  | stopRec
  | disconnect
  | processChunk (socketPresent : Bool) (socketConnected : Bool) (inputData : List ℚ)
deriving DecidableEq, Repr

/-- One step of the socket audio machine; the second component is the payload
emitted as `audio_data`, if any. -/
def sockStep (st : SockState) : SockEv → SockState × Option (List ℤ)
  | SockEv.startRec => ({ st with isActiveRef := true }, none)
  | SockEv.stopRec => ({ st with isActiveRef := false }, none)
  | SockEv.disconnect => ({ st with isActiveRef := false }, none)
  | SockEv.processChunk p c inp => onaudioprocess st p c inp

/-- Run of the socket audio machine recording, for every step, the pre-state,
the event, and the emitted payload. -/
def sockTrace (st : SockState) : List SockEv → List (SockState × SockEv × Option (List ℤ))
  | [] => []
  | e :: es => (st, e, (sockStep st e).2) :: sockTrace (sockStep st e).1 es

/-- The closure state of `startAudioStream` (`api.ts:782-783`): the `isActive`
and `isPaused` flags read by `processor.port.onmessage`. -/
structure AudioCtl where
  isActive : Bool
  isPaused : Bool
deriving DecidableEq, Repr

/-- Events acting on the audio-stream control: `pause`/`resume`/`stop` from the
returned control (`api.ts:824-841`) and a worklet message carrying audio data;
`sessionLostAck` models an acknowledgement error "Session not found"
(`api.ts:796-801`). -/
inductive AudioEv where
  | pause
  | resume
  | stop
  | chunk (socketConnected : Bool) (sessionLostAck : Bool)
deriving DecidableEq, Repr

/-- One step of the `startAudioStream` control machine
(`api.ts:789-806,824-841`); the boolean records whether the step emitted
`audio_data` on the socket. -/
def audioCtlStep (st : AudioCtl) : AudioEv → AudioCtl × Bool
  | AudioEv.pause => ({ st with isPaused := true }, false)
  | AudioEv.resume => ({ st with isPaused := false }, false)
  | AudioEv.stop => ({ st with isActive := false }, false)
  | AudioEv.chunk conn lost =>
      if !st.isActive || st.isPaused || !conn then (st, false)
      else (if lost then { st with isActive := false } else st, true)

/-- Run of the control machine recording pre-state, event, and emission flag. -/
def audioCtlTrace (st : AudioCtl) : List AudioEv → List (AudioCtl × AudioEv × Bool)
  | [] => []
  | e :: es => (st, e, (audioCtlStep st e).2) :: audioCtlTrace (audioCtlStep st e).1 es

/-- A step of the control machine emits only from an active, unpaused state. -/
theorem audioCtlStep_emit (st : AudioCtl) (e : AudioEv)
    (h : (audioCtlStep st e).2 = true) :
    st.isActive = true ∧ st.isPaused = false := by
  cases e with
  | pause => simp [audioCtlStep] at h
  | resume => simp [audioCtlStep] at h
  | stop => simp [audioCtlStep] at h
  | chunk conn lost =>
      simp only [audioCtlStep] at h
      split at h
      · exact absurd h (by simp)
      · next hcond =>
          simp at hcond
          exact ⟨hcond.1.1, hcond.1.2⟩

/-- `onaudioprocess` emits only when the active ref is set. -/
theorem onaudioprocess_emit (st : SockState) (p c : Bool) (inp : List ℚ)
    (h : (onaudioprocess st p c inp).2 ≠ none) : st.isActiveRef = true := by
  unfold onaudioprocess at h
  by_cases h1 : (!p || !st.isActiveRef) = true
  · rw [if_pos h1] at h
    simp at h
  · simp at h1
    exact h1.2

/-- A step of the socket machine emits only when the active ref is set. -/
theorem sockStep_emit (st : SockState) (e : SockEv)
    (h : (sockStep st e).2 ≠ none) : st.isActiveRef = true := by
  cases e with
  | startRec => simp [sockStep] at h
  | stopRec => simp [sockStep] at h
  | disconnect => simp [sockStep] at h
  | processChunk p c inp => exact onaudioprocess_emit st p c inp h

/-- Along any run of the control machine, emissions happen only from active,
unpaused pre-states. -/
theorem audioCtlTrace_emit (evs : List AudioEv) :
    ∀ (st pre : AudioCtl) (ev : AudioEv) (em : Bool),
      (pre, ev, em) ∈ audioCtlTrace st evs → em = true →
      pre.isActive = true ∧ pre.isPaused = false := by
  induction evs with
  | nil =>
      intro st pre ev em h _
      simp [audioCtlTrace] at h
  | cons e es ih =>
      intro st pre ev em h hem
      rw [audioCtlTrace] at h
      rcases List.mem_cons.mp h with heq | hmem
      · simp only [Prod.mk.injEq] at heq
        obtain ⟨rfl, rfl, rfl⟩ := heq
        exact audioCtlStep_emit _ _ hem
      · exact ih _ pre ev em hmem hem

/-- Along any run of the socket machine, emissions happen only from states with
the active ref set. -/
theorem sockTrace_emit (evs : List SockEv) :
    ∀ (st pre : SockState) (ev : SockEv) (out : Option (List ℤ)),
      (pre, ev, out) ∈ sockTrace st evs → out ≠ none →
      pre.isActiveRef = true := by
  induction evs with
  | nil =>
      intro st pre ev out h _
      simp [sockTrace] at h
  | cons e es ih =>
      intro st pre ev out h hout
      rw [sockTrace] at h
      rcases List.mem_cons.mp h with heq | hmem
      · simp only [Prod.mk.injEq] at heq
        obtain ⟨rfl, rfl, rfl⟩ := heq
        exact sockStep_emit _ _ hout
      · exact ih _ pre ev out hmem hout

/-- C4: along every sequence of pause/resume/stop operations interleaved with
audio-processing callbacks, `audio_data` is emitted only at points where the
active flag is set (and, for the api.ts transport, the pause flag is clear); in
particular a late audio callback after `stop()` or `pause()` emits nothing. -/
theorem audio_send_only_while_active :
    (∀ (st : AudioCtl) (evs : List AudioEv) (pre : AudioCtl) (ev : AudioEv) (em : Bool),
        (pre, ev, em) ∈ audioCtlTrace st evs → em = true →
        pre.isActive = true ∧ pre.isPaused = false) ∧
    (∀ (st : SockState) (evs : List SockEv) (pre : SockState) (ev : SockEv)
        (out : Option (List ℤ)),
        (pre, ev, out) ∈ sockTrace st evs → out ≠ none → pre.isActiveRef = true) ∧
    (∀ (st : AudioCtl) (conn lost : Bool),
        (audioCtlStep (audioCtlStep st AudioEv.stop).1 (AudioEv.chunk conn lost)).2 = false) ∧
    (∀ (st : AudioCtl) (conn lost : Bool),
        (audioCtlStep (audioCtlStep st AudioEv.pause).1 (AudioEv.chunk conn lost)).2 = false) ∧
    (∀ (st : SockState) (p c : Bool) (inp : List ℚ),
        (sockStep (sockStep st SockEv.stopRec).1 (SockEv.processChunk p c inp)).2 = none) := by
  refine ⟨?_, ?_, ?_, ?_, ?_⟩
  · intro st evs pre ev em h hem
    exact audioCtlTrace_emit evs st pre ev em h hem
  · intro st evs pre ev out h hout
    exact sockTrace_emit evs st pre ev out h hout
  · intro st conn lost
    simp [audioCtlStep]
  · intro st conn lost
    simp [audioCtlStep]
  · intro st p c inp
    simp [sockStep, onaudioprocess]

/-- C4 witness: the trace of a single emitting chunk from the started state
shows the emission happened with the active flag set and the pause flag
clear. -/
theorem audio_send_only_while_active_witness :
    ({ isActive := true, isPaused := false } : AudioCtl).isActive = true ∧
    ({ isActive := true, isPaused := false } : AudioCtl).isPaused = false :=
  audio_send_only_while_active.1 { isActive := true, isPaused := false }
    [AudioEv.chunk true false] { isActive := true, isPaused := false }
    (AudioEv.chunk true false) true (by decide) (by decide)

/-- C6: every PCM16 sample produced by the conversion lies in the signed 16-bit
range, and an out-of-range rounded product is clamped to the corresponding
bound. -/
theorem pcm16_within_int16_range (x : ℚ) :
    -32768 ≤ pcm16 x ∧ pcm16 x ≤ 32767 ∧
    (32767 < jsRound (x * 32767) → pcm16 x = 32767) ∧
    (jsRound (x * 32767) < -32768 → pcm16 x = -32768) := by
  refine ⟨?_, ?_, ?_, ?_⟩
  · unfold pcm16
    exact le_max_left _ _
  · unfold pcm16
    exact max_le (by norm_num) (min_le_left _ _)
  · intro hgt
    unfold pcm16
    rw [min_eq_left (le_of_lt hgt)]
    exact max_eq_right (by norm_num)
  · intro hlt
    unfold pcm16
    rw [min_eq_right (by linarith : jsRound (x * 32767) ≤ 32767)]
    exact max_eq_left (by linarith)

/-- C6 witness: the over-range input 2.0 is clamped to 32767 and the
under-range input -2.0 is clamped to -32768. -/
theorem pcm16_within_int16_range_witness :
    pcm16 2 = 32767 ∧ pcm16 (-2) = -32768 :=
  ⟨(pcm16_within_int16_range 2).2.2.1 (by norm_num [jsRound]),
   (pcm16_within_int16_range (-2)).2.2.2 (by norm_num [jsRound])⟩

/-! ## SSE retry loop of `streamSessionUpdates` (`api.ts:350-455`) -/

/-- Maximum manual reconnect attempts (`api.ts:351`). -/
def MAX_RETRIES : Nat := 3

/-- Fate of the currently connected `EventSource` as seen by its handlers: an
error without a prior successful open, a successful open (which resets
`retryCount`, `api.ts:369-372`) followed later by an error, or a successful
open after which the stream stays healthy. -/
inductive Fate where
  | fail
  | openFail
  | openOnly
deriving DecidableEq, Repr

/-- Callback reports observable from the retry loop: the per-error
`onConnectionError(event)` call, the scheduling of a reconnect attempt
(`setTimeout(setupEventSource, ...)`, `api.ts:426-428`), and the terminal
`onConnectionError(new Event('maxretries'))` report (`api.ts:429-434`). -/
inductive Report where
  | connError
  | retryScheduled
  | terminal
deriving DecidableEq, Repr

/-- The retry loop as a fold over connection fates carrying `retryCount`: below
the limit an error closes the source and schedules a reconnect; at the limit
the terminal report is issued and — because the errored source is not closed in
that branch — the handler stays attached, so a further failure of that source
repeats the terminal report; a successful open resets the counter to zero. -/
def sseRun : Nat → List Fate → List Report
  | _, [] => []
  | rc, Fate.fail :: rest =>
      if rc < MAX_RETRIES then
        Report.connError :: Report.retryScheduled :: sseRun (rc + 1) rest
      else
        Report.connError :: Report.terminal :: sseRun rc rest
  | _, Fate.openFail :: rest =>
      Report.connError :: Report.retryScheduled :: sseRun 1 rest
  | _, Fate.openOnly :: _ => []

/-- A failure below the retry limit reports the error and schedules a
reconnect, incrementing the counter. -/
theorem sseRun_fail_lt (rc : Nat) (h : rc < MAX_RETRIES) (rest : List Fate) :
    sseRun rc (Fate.fail :: rest) =
      Report.connError :: Report.retryScheduled :: sseRun (rc + 1) rest := by
  simp [sseRun, h]

/-- A failure at the retry limit reports the terminal error and schedules
nothing, leaving the counter at the limit. -/
theorem sseRun_fail_stuck (rest : List Fate) :
    sseRun MAX_RETRIES (Fate.fail :: rest) =
      Report.connError :: Report.terminal :: sseRun MAX_RETRIES rest := by
  simp [sseRun, MAX_RETRIES]

/-- At the limit, `k` further consecutive failures produce `k` terminal reports
and schedule no reconnect. -/
theorem sseRun_stuck_counts (k : Nat) :
    (sseRun MAX_RETRIES (List.replicate k Fate.fail)).count Report.terminal = k ∧
    (sseRun MAX_RETRIES (List.replicate k Fate.fail)).count Report.retryScheduled = 0 := by
  induction k with
  | zero => exact ⟨rfl, rfl⟩
  | succ n ih =>
      rw [List.replicate_succ, sseRun_fail_stuck]
      constructor
      · simp [List.count_cons, ih.1]
      · simp [List.count_cons, ih.2]

/-- Four leading failures run through three scheduled retries and one terminal
report, leaving the loop stuck at the limit. -/
theorem sseRun_four_fails (rest : List Fate) :
    sseRun 0 (Fate.fail :: Fate.fail :: Fate.fail :: Fate.fail :: rest) =
      Report.connError :: Report.retryScheduled :: Report.connError ::
      Report.retryScheduled :: Report.connError :: Report.retryScheduled ::
      Report.connError :: Report.terminal :: sseRun MAX_RETRIES rest := by
  rw [sseRun_fail_lt 0 (by decide), sseRun_fail_lt 1 (by decide),
    sseRun_fail_lt 2 (by decide)]
  exact congrArg _ (congrArg _ (congrArg _ (congrArg _ (congrArg _
    (congrArg _ (sseRun_fail_stuck rest))))))

/-- C5 counterexample: five consecutive connection failures produce the
terminal report twice, refuting "reports a terminal connection error exactly
once" for runs with more than four consecutive failures. -/
theorem sse_terminal_reported_twice_on_five_failures :
    (sseRun 0 (List.replicate 5 Fate.fail)).count Report.terminal = 2 := by
  decide

/-- C5 corrected: after three consecutive failures the loop stops scheduling
reconnects — a run of `4 + n` consecutive failures schedules exactly three
reconnect attempts — and the terminal report is issued on the fourth and on
every further consecutive failure (so exactly once only when the failures stop
at four), because the terminal branch leaves the errored source open with its
handler attached; a successful reconnect resets the retry counter to zero, so
the bound applies to consecutive failures only. -/
theorem sse_retry_bound_and_reset :
    (∀ n : Nat,
        (sseRun 0 (List.replicate (4 + n) Fate.fail)).count Report.retryScheduled = 3 ∧
        (sseRun 0 (List.replicate (4 + n) Fate.fail)).count Report.terminal = n + 1) ∧
    (∀ (rc : Nat) (rest : List Fate),
        sseRun rc (Fate.openFail :: rest) =
          Report.connError :: Report.retryScheduled :: sseRun 1 rest) := by
  constructor
  · intro n
    have hrep : List.replicate (4 + n) Fate.fail =
        Fate.fail :: Fate.fail :: Fate.fail :: Fate.fail :: List.replicate n Fate.fail := by
      rw [List.replicate_add]
      rfl
    rw [hrep, sseRun_four_fails]
    constructor
    · simp [List.count_cons, (sseRun_stuck_counts n).2]
    · simp [List.count_cons, (sseRun_stuck_counts n).1]
  · intro rc rest
    simp [sseRun]

/-! ## Event channel connections (`eventStream.ts`, `api.ts`) -/

/-- State of an `EventStreamManager` (`eventStream.ts:181-270`): the held
`eventSource`, the set of opened-and-not-yet-closed connections, and a fresh-id
counter. -/
structure ESMState where
  current : Option Nat
  live : List Nat
  nextId : Nat
deriving DecidableEq, Repr

/-- `EventStreamManager.disconnect` (`eventStream.ts:264-269`): close and drop
the current EventSource, if any. -/
def esmDisconnect (st : ESMState) : ESMState :=
  match st.current with
  | some c => { st with current := none, live := st.live.filter (fun x => x != c) }
  | none => st

/-- `EventStreamManager.connect` (`eventStream.ts:194-203`): return on an empty
session id, otherwise close any existing source first and only then open a new
one. -/
def esmConnect (st : ESMState) (sessionIdPresent : Bool) : ESMState :=
  if !sessionIdPresent then st
  else
    let st1 := esmDisconnect st
    { current := some st1.nextId, live := st1.live ++ [st1.nextId], nextId := st1.nextId + 1 }

/-- Operations on an `EventStreamManager`. -/
inductive ESMOp where
  | connect (sessionIdPresent : Bool)
  | disconnect
deriving DecidableEq, Repr

/-- Apply one manager operation. -/
def esmApply (st : ESMState) : ESMOp → ESMState
  | ESMOp.connect p => esmConnect st p
  | ESMOp.disconnect => esmDisconnect st

/-- Run a sequence of manager operations. -/
def esmRun (st : ESMState) : List ESMOp → ESMState
  | [] => st
  | op :: ops => esmRun (esmApply st op) ops

/-- A fresh manager holds no connection. -/
def esmInit : ESMState := { current := none, live := [], nextId := 0 }

/-- The single-live-connection invariant: the live connections are exactly the
held one. -/
def esmInv (st : ESMState) : Prop := st.live = st.current.toList

/-- `disconnect` always leaves the manager with no held connection. -/
theorem esmDisconnect_current (st : ESMState) : (esmDisconnect st).current = none := by
  unfold esmDisconnect
  cases hc : st.current <;> simp [hc]

/-- `disconnect` preserves the invariant. -/
theorem esmDisconnect_inv (st : ESMState) (h : esmInv st) : esmInv (esmDisconnect st) := by
  unfold esmInv esmDisconnect at *
  cases hc : st.current with
  | none => simpa using h
  | some c =>
      rw [hc] at h
      simp [h]

/-- `connect` preserves the invariant. -/
theorem esmConnect_inv (st : ESMState) (p : Bool) (h : esmInv st) :
    esmInv (esmConnect st p) := by
  unfold esmConnect
  cases p with
  | false => simpa using h
  | true =>
      have h1 := esmDisconnect_inv st h
      unfold esmInv at h1 ⊢
      rw [esmDisconnect_current] at h1
      simp [h1]

/-- Every run from a fresh manager keeps the invariant. -/
theorem esmRun_inv (ops : List ESMOp) : ∀ st, esmInv st → esmInv (esmRun st ops) := by
  induction ops with
  | nil => intro st h; exact h
  | cons op ops ih =>
      intro st h
      show esmInv (esmRun (esmApply st op) ops)
      apply ih
      cases op with
      | connect p => exact esmConnect_inv st p h
      | disconnect => exact esmDisconnect_inv st h

/-- State of the `streamSessionUpdates` closure (`api.ts:333-461`): the held
`this.eventSource`, the opened-and-not-closed connections, whether a reconnect
timer is pending, and a fresh-id counter. -/
structure ApiStreamState where
  current : Option Nat
  live : List Nat
  pendingRetry : Bool
  nextId : Nat
deriving DecidableEq, Repr

/-- `closeEventStream` (`api.ts:466-477`): close and drop the held source. -/
def apiCloseEventStream (st : ApiStreamState) : ApiStreamState :=
  match st.current with
  | some c => { st with current := none, live := st.live.filter (fun x => x != c) }
  | none => st

/-- `setupEventSource` (`api.ts:354-366`): assign a brand-new EventSource to
`this.eventSource` WITHOUT closing the previously held one; it never touches
pending timers. -/
def apiSetupEventSource (st : ApiStreamState) : ApiStreamState :=
  { st with
    current := some st.nextId
    live := st.live ++ [st.nextId]
    nextId := st.nextId + 1 }

/-- Operations of the `api.ts` stream path: a `streamSessionUpdates` call
(close, then set up, `api.ts:342-455`), a below-limit error (close, then
schedule a reconnect timer, `api.ts:415-428`), and the firing of a pending
reconnect timer (set up without closing). -/
inductive ApiStreamOp where
  | streamCall
  | errorRetry
  | timerFire
deriving DecidableEq, Repr

/-- Apply one stream-path operation. -/
def apiStreamStep (st : ApiStreamState) : ApiStreamOp → ApiStreamState
  | ApiStreamOp.streamCall => apiSetupEventSource (apiCloseEventStream st)
  | ApiStreamOp.errorRetry => { apiCloseEventStream st with pendingRetry := true }
  | ApiStreamOp.timerFire =>
      if st.pendingRetry then apiSetupEventSource { st with pendingRetry := false } else st

/-- Run a sequence of stream-path operations. -/
def apiStreamRun (st : ApiStreamState) : List ApiStreamOp → ApiStreamState
  | [] => st
  | op :: ops => apiStreamRun (apiStreamStep st op) ops

/-- The single-live-connection invariant for the stream path. -/
def apiInv (st : ApiStreamState) : Prop := st.live = st.current.toList

/-- `closeEventStream` always leaves no held connection. -/
theorem apiCloseEventStream_current (st : ApiStreamState) :
    (apiCloseEventStream st).current = none := by
  unfold apiCloseEventStream
  cases hc : st.current <;> simp [hc]

/-- `closeEventStream` preserves the invariant. -/
theorem apiCloseEventStream_inv (st : ApiStreamState) (h : apiInv st) :
    apiInv (apiCloseEventStream st) := by
  unfold apiInv apiCloseEventStream at *
  cases hc : st.current with
  | none => simpa using h
  | some c =>
      rw [hc] at h
      simp [h]

/-- C9 counterexample: a stream call, a below-limit error, a second stream call
and then the firing of the still-pending reconnect timer leave TWO live
connections — the timer's `setupEventSource` opens without closing the held
one — refuting "at most one live event-channel connection at any time". -/
theorem apiStream_timer_fire_two_live_connections :
    ((apiStreamRun { current := none, live := [], pendingRetry := false, nextId := 0 }
        [ApiStreamOp.streamCall, ApiStreamOp.errorRetry, ApiStreamOp.streamCall,
         ApiStreamOp.timerFire]).live).length = 2 := by
  decide

/-- C9 corrected: the `EventStreamManager` of `eventStream.ts` always holds at
most one live connection (every `connect` closes the previous source first),
and the `api.ts` stream path preserves the single-live-connection invariant on
every stream call and every below-limit error, and on a timer firing while no
connection is held; only a pending reconnect timer that fires after a newer
source was opened violates it, as the counterexample shows. -/
theorem event_channel_single_live_connection :
    (∀ ops : List ESMOp, ((esmRun esmInit ops).live).length ≤ 1) ∧
    (∀ st : ApiStreamState, apiInv st →
        apiInv (apiStreamStep st ApiStreamOp.streamCall) ∧
        apiInv (apiStreamStep st ApiStreamOp.errorRetry) ∧
        (st.current = none → apiInv (apiStreamStep st ApiStreamOp.timerFire))) := by
  constructor
  · intro ops
    have h := esmRun_inv ops esmInit rfl
    rw [esmInv] at h
    rw [h]
    cases (esmRun esmInit ops).current <;> simp
  · intro st h
    refine ⟨?_, ?_, ?_⟩
    · show apiInv (apiSetupEventSource (apiCloseEventStream st))
      have h1 := apiCloseEventStream_inv st h
      unfold apiInv at h1 ⊢
      rw [apiCloseEventStream_current] at h1
      simp [apiSetupEventSource, h1]
    · show apiInv { (apiCloseEventStream st) with pendingRetry := true }
      have h1 := apiCloseEventStream_inv st h
      unfold apiInv at h1 ⊢
      simpa [apiCloseEventStream_current] using h1
    · intro hc
      unfold apiInv at h ⊢
      rw [hc] at h
      cases hp : st.pendingRetry <;>
        simp [apiStreamStep, hp, apiSetupEventSource, h, hc]

/-- C9 witness: from a consistent one-connection state, a stream call preserves
the single-live-connection invariant. -/
theorem event_channel_single_live_connection_witness :
    apiInv (apiStreamStep
      { current := some 0, live := [0], pendingRetry := false, nextId := 1 }
      ApiStreamOp.streamCall) :=
  (event_channel_single_live_connection.2
    { current := some 0, live := [0], pendingRetry := false, nextId := 1 } rfl).1

/-- `jsOr a true` is `true` for every value of the parsed `final` field. -/
theorem jsOr_true (a : Option Bool) : jsOr a true = true := by
  cases a with
  | none => rfl
  | some b => cases b <;> rfl

/-- With `final = true`, `handleResponse` never takes the replace-in-place
branch: it always falls through to `respFallback`. -/
theorem handleResponse_true_eq (prev : List Message) (text : String) :
    handleResponse prev text true = respFallback prev text := by
  unfold handleResponse
  cases findLastIdx (fun m => m.role == Role.assistant) prev <;> simp

/-- C1: the claim states that a sequence of `Response{final:false}` events
followed by one `Response{final:true}`, applied to a transcript with no open
assistant message, ends with exactly one closed assistant message holding the
final text.  The code violates this: a final response skips the replace branch
and appends a new assistant message, so one prior `final:false` update leaves
two assistant messages, the stale last-partial text and the final text. -/
theorem handleResponse_final_appends_new_assistant :
    handleResponse (handleResponse [] ("Hello") false) ("Hello world") true =
      [{ role := Role.assistant, content := "Hello", id := none },
       { role := Role.assistant, content := "Hello world", id := none }] ∧
    countRole Role.assistant
      (handleResponse (handleResponse [] ("Hello") false) ("Hello world") true) = 2 := by
  constructor <;> decide

/-- C2: every SSE payload of type `response` dispatched by the chat interface's
inline message handler reaches `handleResponse` with `final = true`, because the
flag is computed as `data.final || true`, which is `true` for every payload;
hence no response event ever reaches the replace-in-place branch through this
handler. -/
theorem dispatchResponse_always_final (dataFinal : Option Bool)
    (prev : List Message) (text : String) :
    jsOr dataFinal true = true ∧
    dispatchResponse prev text dataFinal = respFallback prev text := by
  refine ⟨jsOr_true dataFinal, ?_⟩
  rw [dispatchResponse, jsOr_true]
  exact handleResponse_true_eq prev text

/-- Counting role/content matches distributes over list append. -/
theorem countRoleContent_append (r : Role) (t : String) (a b : List Message) :
    countRoleContent r t (a ++ b) = countRoleContent r t a + countRoleContent r t b := by
  simp [countRoleContent, List.filter_append]

/-- C7: if a user message with content `t` is appended locally on send (to a
transcript holding no user message with content `t`) and a transcription event
for `t` arrives afterwards, the transcript is unchanged by the transcription
event and still contains exactly one user message with content `t`. -/
theorem transcription_after_send_no_duplicate (prev : List Message) (t : String)
    (h : countRoleContent Role.user t prev = 0) :
    handleTranscription (sendMessageLocalAppend prev t) t = sendMessageLocalAppend prev t ∧
    countRoleContent Role.user t
      (handleTranscription (sendMessageLocalAppend prev t) t) = 1 := by
  refine ⟨rfl, ?_⟩
  rw [handleTranscription, sendMessageLocalAppend, countRoleContent_append, h]
  simp [countRoleContent, List.filter, show (Role.log == Role.user) = false from rfl]

/-- C7 witness: sending "ping" into an empty transcript and then receiving a
`Transcription` event for "ping" leaves exactly one user message "ping". -/
theorem transcription_after_send_no_duplicate_witness :
    countRoleContent Role.user ("ping")
      (handleTranscription (sendMessageLocalAppend [] ("ping")) ("ping")) = 1 :=
  (transcription_after_send_no_duplicate [] ("ping") (by decide)).2

end Copilot
